import Mathlib

/-!
Shallow embedding of `src/stock_bot.py` (Stock Portfolio Tracker Bot).

Modelling conventions:
- Prices, share counts and derived amounts are rationals (the Python code
  works with provider-supplied floating point numbers; the claims under
  study are exact arithmetic identities, so ℚ is the faithful exact model).
- The external world is an `Env`: the `SLACK_WEBHOOK_URL` environment
  variable, the market-data provider (per symbol, either a provider error
  or a list of daily close prices, oldest first, as returned by
  `stock.history(period="2d")`), and the webhook transport (either a
  transport error or an HTTP status code).
- Observable HTTP traffic is recorded as a list of `HttpCall` values:
  one provider request per holding (issued inside `get_stock_data`
  regardless of outcome) and at most one webhook POST.
- `sys.exit` inside `send_to_slack` is modelled by the `SendOutcome.exited`
  constructor, which `main` propagates as the process exit code.
- Note: division on ℚ is total with `x / 0 = 0`; the claims proved below
  never rely on the value of a division at divisor zero.
-/

/-- Result dictionary returned by `get_stock_data` on success. -/
structure StockData where
  symbol : String
  price : ℚ
  change : ℚ
  change_pct : ℚ
deriving DecidableEq

/-- The external world as seen by one run of the bot. -/
structure Env where
  slack_webhook_url : Option String
  fetchHist : String → Except Unit (List ℚ)
  postStatus : Except Unit Nat

/-- Pandas negative indexing: `ilocNeg hist k` is `hist["Close"].iloc[-k]`. -/
def ilocNeg (hist : List ℚ) (k : Nat) : ℚ :=
  hist.getD (hist.length - k) 0

/-- `get_stock_data(symbol)`: fetch close history and derive price, daily
change and daily percent change.  A provider exception or an empty history
yields `None` (the `except` branch and the `len(hist) < 1` branch). -/
def get_stock_data (env : Env) (symbol : String) : Option StockData :=
  match env.fetchHist symbol with
  | Except.error _ => none
  | Except.ok hist =>
    if hist.length < 1 then
      none
    else
      let current_price := ilocNeg hist 1
      if hist.length ≥ 2 then
        let prev_price := ilocNeg hist 2
        let change := current_price - prev_price
        some ⟨symbol, current_price, change, (change / prev_price) * 100⟩
      else
        some ⟨symbol, current_price, 0, 0⟩

/-- One entry of `portfolio_data` built by the loop in `calculate_portfolio`. -/
structure PortfolioLine where
  symbol : String
  shares : ℚ
  price : ℚ
  value : ℚ
  change : ℚ
  change_pct : ℚ
  daily_change : ℚ
deriving DecidableEq

/-- The `for symbol, shares in PORTFOLIO.items()` loop of
`calculate_portfolio`: returns `(portfolio_data, total_value,
total_daily_change)`.  A holding whose fetch returned `None` is skipped. -/
def portfolioLoop (env : Env) : List (String × ℚ) → List PortfolioLine × ℚ × ℚ
  | [] => ([], 0, 0)
  | holding :: rest =>
    let symbol := holding.1
    let shares := holding.2
    let acc := portfolioLoop env rest
    match get_stock_data env symbol with
    | none => acc
    | some data =>
      let value := data.price * shares
      let daily_change := data.change * shares
      (⟨symbol, shares, data.price, value, data.change, data.change_pct,
        daily_change⟩ :: acc.1,
       value + acc.2.1, daily_change + acc.2.2)

/-- Return value of `calculate_portfolio`. -/
structure PortfolioTotals where
  portfolio_data : List PortfolioLine
  total_value : ℚ
  total_daily_change : ℚ
  total_change_pct : ℚ
deriving DecidableEq

/-- `calculate_portfolio()`: run the loop, then
`total_change_pct = (total_daily_change / (total_value - total_daily_change))
 * 100 if total_value > 0 else 0`. -/
def calculate_portfolio (env : Env) (portfolio : List (String × ℚ)) :
    PortfolioTotals :=
  let r := portfolioLoop env portfolio
  let total_change_pct :=
    if r.2.1 > 0 then (r.2.2 / (r.2.1 - r.2.2)) * 100 else 0
  ⟨r.1, r.2.1, r.2.2, total_change_pct⟩

/-- Structured form of the Slack message assembled by `format_message`:
the header emoji and trend word, the timestamp, one section per holding
(its change marker emoji and the data rendered in that section), and the
summary totals.  The literal string concatenation and the two-decimal
number formatting are presentation only and are not modelled. -/
structure SlackMessage where
  emoji : String
  trend : String
  header_time : String
  holding_sections : List (String × PortfolioLine)
  total_value : ℚ
  total_daily_change : ℚ
  total_change_pct : ℚ
deriving DecidableEq

/-- `format_message(portfolio_data, total_value, total_daily_change,
total_change_pct)`; `now` stands for `datetime.now()` rendered as text. -/
def format_message (now : String) (portfolio_data : List PortfolioLine)
    (total_value total_daily_change total_change_pct : ℚ) : SlackMessage :=
  let et : String × String :=
    if total_daily_change > 0 then ("📈", "up")
    else if total_daily_change < 0 then ("📉", "down")
    else ("➡️", "flat")
  { emoji := et.1
    trend := et.2
    header_time := now
    holding_sections := portfolio_data.map (fun stock =>
      (if stock.change ≥ 0 then "🟢" else "🔴", stock))
    total_value := total_value
    total_daily_change := total_daily_change
    total_change_pct := total_change_pct }

/-- A JSON value appearing in the webhook payload. -/
inductive SlackValue where
  | str (s : String)
  | msg (m : SlackMessage)
deriving DecidableEq

/-- The `slack_data` dictionary literal built in `send_to_slack`, as an
ordered key/value list. -/
def slack_data (message : SlackMessage) : List (String × SlackValue) :=
  [("text", SlackValue.msg message),
   ("username", SlackValue.str "Stock Tracker Bot"),
   ("icon_emoji", SlackValue.str ":chart_with_upwards_trend:")]

/-- An observable HTTP request made by the run: a market-data request for
one symbol, or the webhook POST with its payload and timeout in seconds. -/
inductive HttpCall where
  | fetch (symbol : String)
  | post (url : String) (payload : List (String × SlackValue)) (timeout : Nat)
deriving DecidableEq

/-- Recognise the webhook POST among the recorded HTTP calls. -/
def HttpCall.isPost : HttpCall → Bool
  | .post _ _ _ => true
  | .fetch _ => false

/-- Python truthiness test `not SLACK_WEBHOOK_URL`: true when the variable
is unset (`None`) or set to the empty string. -/
def urlFalsy : Option String → Bool
  | none => true
  | some s => s.isEmpty

/-- How `send_to_slack` ends: `sys.exit(code)` or a normal `return success`. -/
inductive SendOutcome where
  | exited (code : Nat)
  | returned (success : Bool)
deriving DecidableEq

/-- `send_to_slack(message)`: exit 1 if the webhook URL is missing,
otherwise POST `slack_data` with a 10 second timeout and report success
exactly for HTTP status 200; a transport exception is caught and reported
as failure.  Also returns the HTTP calls it made. -/
def send_to_slack (env : Env) (message : SlackMessage) :
    SendOutcome × List HttpCall :=
  if urlFalsy env.slack_webhook_url then
    (SendOutcome.exited 1, [])
  else
    let url := env.slack_webhook_url.getD ""
    let call := HttpCall.post url (slack_data message) 10
    match env.postStatus with
    | Except.ok status => (SendOutcome.returned (status == 200), [call])
    | Except.error _ => (SendOutcome.returned false, [call])

/-- The provider requests issued by the loop in `calculate_portfolio`:
exactly one per holding, whatever the outcome of the fetch. -/
def fetchTrace (portfolio : List (String × ℚ)) : List HttpCall :=
  portfolio.map (fun holding => HttpCall.fetch holding.1)

namespace StockBot

/-- `main()`: calculate the portfolio, format the message, send it, and
exit 0 on delivery success and 1 otherwise (including the missing-URL exit
taken inside `send_to_slack`).  Returns the exit code and the full ordered
HTTP trace of the run. -/
def main (env : Env) (portfolio : List (String × ℚ)) (now : String) :
    Nat × List HttpCall :=
  let r := calculate_portfolio env portfolio
  let message := format_message now r.portfolio_data r.total_value
    r.total_daily_change r.total_change_pct
  match send_to_slack env message with
  | (SendOutcome.exited code, calls) => (code, fetchTrace portfolio ++ calls)
  | (SendOutcome.returned success, calls) =>
    ((if success then 0 else 1), fetchTrace portfolio ++ calls)

end StockBot

/-- The `PORTFOLIO` table from the source, read as the intended mapping
(the transcription in the repository is missing commas between entries). -/
def PORTFOLIO : List (String × ℚ) :=
  [("AAPL", 1), ("MSFT", 1), ("VOO", 4.202), ("QTUM", 4.681),
   ("QQQ", 0.187), ("SPY", 4.612), ("XLU", 0.578), ("JAAA", 2.067),
   ("SCHD", 5.564)]

/-! ### Concrete environments used to exercise the definitions -/

/-- A provider that reports, for symbol `A`, a close of `-1` yesterday and
`2` today, and a webhook that accepts the message. -/
def envNegPrev : Env :=
  { slack_webhook_url := some "https://hooks.example/neg"
    fetchHist := fun _ => Except.ok [-1, 2]
    postStatus := Except.ok 200 }

/-- The two-symbol scenario of the specification: `A` closed at 10 then 12,
`B` closed at 50 twice; every other symbol errors.  The webhook is
configured and accepts the message. -/
def envAB : Env :=
  { slack_webhook_url := some "https://hooks.example/AB"
    fetchHist := fun s =>
      if s = "A" then Except.ok [10, 12]
      else if s = "B" then Except.ok [50, 50]
      else Except.error ()
    postStatus := Except.ok 200 }

/-- Webhook URL unset; every symbol has one day of history; the webhook
transport would fail if it were ever reached. -/
def envNoUrl : Env :=
  { slack_webhook_url := none
    fetchHist := fun _ => Except.ok [1]
    postStatus := Except.error () }

/-- Webhook configured, but every provider request raises. -/
def envAllFail : Env :=
  { slack_webhook_url := some "https://hooks.example/fail"
    fetchHist := fun _ => Except.error ()
    postStatus := Except.ok 200 }

/-! ### Helper lemmas -/

/-- The running totals of the loop are the sums over the accumulated lines. -/
lemma portfolioLoop_sums (env : Env) (p : List (String × ℚ)) :
    (portfolioLoop env p).2.1 =
      ((portfolioLoop env p).1.map PortfolioLine.value).sum ∧
    (portfolioLoop env p).2.2 =
      ((portfolioLoop env p).1.map PortfolioLine.daily_change).sum := by
  induction p with
  | nil => simp [portfolioLoop]
  | cons holding rest ih =>
    cases hd : get_stock_data env holding.1 with
    | none => simpa [portfolioLoop, hd] using ih
    | some d => simp [portfolioLoop, hd, ih.1, ih.2]

/-- Holdings whose fetch fails contribute nothing: the loop output over a
portfolio equals its output over the sub-portfolio of successful fetches. -/
lemma portfolioLoop_filter (env : Env) (p : List (String × ℚ)) :
    portfolioLoop env p =
      portfolioLoop env (p.filter (fun q => (get_stock_data env q.1).isSome)) := by
  induction p with
  | nil => rfl
  | cons holding rest ih =>
    cases hd : get_stock_data env holding.1 with
    | none => simp [portfolioLoop, hd, List.filter_cons, ih]
    | some d => simp [portfolioLoop, hd, List.filter_cons, ← ih]

/-- Every accumulated line belongs to a holding whose fetch succeeded. -/
lemma portfolioLoop_mem_fetch_ok (env : Env) (p : List (String × ℚ))
    (line : PortfolioLine) (hline : line ∈ (portfolioLoop env p).1) :
    (get_stock_data env line.symbol).isSome := by
  induction p with
  | nil => simp [portfolioLoop] at hline
  | cons holding rest ih =>
    cases hd : get_stock_data env holding.1 with
    | none =>
      rw [portfolioLoop] at hline
      simp only [hd] at hline
      exact ih hline
    | some d =>
      rw [portfolioLoop] at hline
      simp only [hd, List.mem_cons] at hline
      rcases hline with h1 | h1
      · subst h1
        simp [hd]
      · exact ih h1

/-- If every fetch fails, the loop returns the empty state. -/
lemma portfolioLoop_all_fail (env : Env) (p : List (String × ℚ))
    (h : ∀ q ∈ p, get_stock_data env q.1 = none) :
    portfolioLoop env p = ([], 0, 0) := by
  induction p with
  | nil => rfl
  | cons holding rest ih =>
    have h0 : get_stock_data env holding.1 = none := h holding (by simp)
    have hrest : ∀ q ∈ rest, get_stock_data env q.1 = none :=
      fun q hq => h q (List.mem_cons_of_mem _ hq)
    simp [portfolioLoop, h0, ih hrest]

/-- Market-data requests are never webhook POSTs. -/
lemma fetchTrace_no_post (p : List (String × ℚ)) :
    (fetchTrace p).countP HttpCall.isPost = 0 := by
  induction p with
  | nil => rfl
  | cons holding rest ih =>
    simp [fetchTrace, List.countP_cons, HttpCall.isPost]

/-- A sample message: the formatted report of a run with no data. -/
def msg0 : SlackMessage := format_message "now" [] 0 0 0

/-! ### Claims -/

/-- Claim C1, counterexample.  A run over one holding (1 share, closes
`[-1, 2]`) has total value 2 and total daily change 3, so total value minus
total daily change is `-1 ≤ 0`; yet `calculate_portfolio` still performs the
division (its guard tests `total_value > 0` only) and returns `-300`, not
the `0` the claim requires. -/
theorem c1_guard_counterexample :
    (calculate_portfolio envNegPrev [("A", 1)]).total_value -
      (calculate_portfolio envNegPrev [("A", 1)]).total_daily_change ≤ 0 ∧
    (calculate_portfolio envNegPrev [("A", 1)]).total_change_pct ≠ 0 := by
  simp [calculate_portfolio, portfolioLoop, get_stock_data, envNegPrev, ilocNeg]
  norm_num

/-- Claim C1, amended.  The guard in `calculate_portfolio` is on the total
value, not on the divisor: whenever total value is ≤ 0 the total change
percent is defined as 0 without dividing; when total value is > 0 the
division is performed whatever the sign of the divisor. -/
theorem c1_percent_zero_when_total_nonpos (env : Env)
    (portfolio : List (String × ℚ))
    (h : (calculate_portfolio env portfolio).total_value ≤ 0) :
    (calculate_portfolio env portfolio).total_change_pct = 0 := by
  have h1 : (portfolioLoop env portfolio).2.1 ≤ 0 := by
    simpa [calculate_portfolio] using h
  simp [calculate_portfolio, not_lt.mpr h1]

/-- Claim C1, witness: the empty run has total value 0 ≤ 0 and its total
change percent is 0. -/
theorem c1_percent_zero_when_total_nonpos_witness :
    (calculate_portfolio envNegPrev []).total_change_pct = 0 :=
  c1_percent_zero_when_total_nonpos envNegPrev []
    (by simp [calculate_portfolio, portfolioLoop])

/-- Claim C2, counterexample.  With `SLACK_WEBHOOK_URL` unset the program
does exit with code 1 and never POSTs, but it is not true that it performs
no HTTP calls at all: the market-data fetches all happen first (the URL is
only checked inside `send_to_slack`, after `calculate_portfolio`), so the
HTTP trace of the run contains the fetch for `AAPL`. -/
theorem c2_fetches_happen_counterexample :
    envNoUrl.slack_webhook_url = none ∧
    (StockBot.main envNoUrl PORTFOLIO "now").1 = 1 ∧
    HttpCall.fetch "AAPL" ∈ (StockBot.main envNoUrl PORTFOLIO "now").2 := by
  refine ⟨rfl, ?_, ?_⟩ <;>
    simp [StockBot.main, send_to_slack, urlFalsy, envNoUrl, fetchTrace, PORTFOLIO]

/-- Claim C2, amended.  When `SLACK_WEBHOOK_URL` is unset the run exits
with code 1 and performs no webhook POST, but it first performs exactly the
market-data fetches, one per holding. -/
theorem c2_unset_url_exits_one_no_post (env : Env)
    (portfolio : List (String × ℚ)) (now : String)
    (h : env.slack_webhook_url = none) :
    (StockBot.main env portfolio now).1 = 1 ∧
    (StockBot.main env portfolio now).2 = fetchTrace portfolio ∧
    (StockBot.main env portfolio now).2.countP HttpCall.isPost = 0 := by
  have hfalsy : urlFalsy env.slack_webhook_url = true := by rw [h]; rfl
  refine ⟨?_, ?_, ?_⟩ <;>
    simp [StockBot.main, send_to_slack, hfalsy, fetchTrace_no_post]

/-- Claim C2, witness: the amended statement at the unset-URL environment
and the source portfolio. -/
theorem c2_unset_url_exits_one_no_post_witness :
    (StockBot.main envNoUrl PORTFOLIO "now").1 = 1 ∧
    (StockBot.main envNoUrl PORTFOLIO "now").2 = fetchTrace PORTFOLIO ∧
    (StockBot.main envNoUrl PORTFOLIO "now").2.countP HttpCall.isPost = 0 :=
  c2_unset_url_exits_one_no_post envNoUrl PORTFOLIO "now" rfl

/-- Claim C3, counterexample.  The payload dictionary built by
`send_to_slack` has keys `text`, `username`, `icon_emoji` — not
`text`, `username`, `icon` as the claim states; no key `icon` exists. -/
theorem c3_payload_keys_counterexample :
    (slack_data msg0).map Prod.fst = ["text", "username", "icon_emoji"] ∧
    (slack_data msg0).map Prod.fst ≠ ["text", "username", "icon"] ∧
    "icon" ∉ (slack_data msg0).map Prod.fst := by
  decide

/-- Claim C3, amended.  For every delivery attempt (webhook URL present and
nonempty), exactly the POST of the `slack_data` payload with a 10-second
timeout is issued, and that payload has exactly the keys `text`,
`username`, `icon_emoji` in that order, with `text` holding the formatted
report. -/
theorem c3_payload_keys_and_timeout (env : Env) (m : SlackMessage)
    (s : String) (h : env.slack_webhook_url = some s)
    (hne : s.isEmpty = false) :
    (send_to_slack env m).2 = [HttpCall.post s (slack_data m) 10] ∧
    (slack_data m).map Prod.fst = ["text", "username", "icon_emoji"] ∧
    (slack_data m).lookup "text" = some (SlackValue.msg m) := by
  cases hps : env.postStatus with
  | ok status => simp [send_to_slack, urlFalsy, hne, hps, h, slack_data]
  | error e => simp [send_to_slack, urlFalsy, hne, hps, h, slack_data]

/-- Claim C3, witness: the amended statement at a configured environment
and the empty-run report. -/
theorem c3_payload_keys_and_timeout_witness :
    (send_to_slack envAB msg0).2 =
      [HttpCall.post "https://hooks.example/AB" (slack_data msg0) 10] ∧
    (slack_data msg0).map Prod.fst = ["text", "username", "icon_emoji"] ∧
    (slack_data msg0).lookup "text" = some (SlackValue.msg msg0) :=
  c3_payload_keys_and_timeout envAB msg0 "https://hooks.example/AB" rfl rfl

/-- Claim C4.  For a holding whose fetch returns at least two days of close
history, the accumulated line has value = latest close × quantity and daily
change = (latest close − previous close) × quantity; with exactly one day
of history, its change, change percent and daily change are all 0. -/
theorem c4_per_holding_value_and_change (env : Env) (symbol : String)
    (shares : ℚ) (hist : List ℚ)
    (hfetch : env.fetchHist symbol = Except.ok hist) :
    (2 ≤ hist.length →
      (portfolioLoop env [(symbol, shares)]).1 =
        [⟨symbol, shares, ilocNeg hist 1, ilocNeg hist 1 * shares,
          ilocNeg hist 1 - ilocNeg hist 2,
          ((ilocNeg hist 1 - ilocNeg hist 2) / ilocNeg hist 2) * 100,
          (ilocNeg hist 1 - ilocNeg hist 2) * shares⟩]) ∧
    (hist.length = 1 →
      (portfolioLoop env [(symbol, shares)]).1 =
        [⟨symbol, shares, ilocNeg hist 1, ilocNeg hist 1 * shares,
          0, 0, 0⟩]) := by
  constructor
  · intro h2
    have h1 : ¬ hist.length < 1 := by omega
    simp [portfolioLoop, get_stock_data, hfetch, h1, h2]
  · intro hlen
    have h1 : ¬ hist.length < 1 := by omega
    have h2 : ¬ hist.length ≥ 2 := by omega
    simp [portfolioLoop, get_stock_data, hfetch, h1, h2]

/-- Claim C4, witness: symbol `A` with closes `[10, 12]` and 2 shares gives
price 12, value 24, change 2, change percent 20 and daily change 4. -/
theorem c4_per_holding_value_and_change_witness :
    (portfolioLoop envAB [("A", 2)]).1 = [⟨"A", 2, 12, 24, 2, 20, 4⟩] := by
  have h := (c4_per_holding_value_and_change envAB "A" 2 [10, 12] rfl).1
    (by norm_num)
  rw [h]
  simp [ilocNeg]
  norm_num

/-- Claim C5.  Totals are the sums over the included lines, and on the
two-symbol scenario (`A`: 2 shares, closes 10 then 12; `B`: 1 share, closes
50 twice) the run yields total value 74, total daily change 4, total change
percent (4 / 70) · 100, and trend `up`. -/
theorem c5_totals_are_sums_and_scenario :
    (∀ (env : Env) (portfolio : List (String × ℚ)),
      (calculate_portfolio env portfolio).total_value =
        ((calculate_portfolio env portfolio).portfolio_data.map
          PortfolioLine.value).sum ∧
      (calculate_portfolio env portfolio).total_daily_change =
        ((calculate_portfolio env portfolio).portfolio_data.map
          PortfolioLine.daily_change).sum) ∧
    (calculate_portfolio envAB [("A", 2), ("B", 1)]).total_value = 74 ∧
    (calculate_portfolio envAB [("A", 2), ("B", 1)]).total_daily_change = 4 ∧
    (calculate_portfolio envAB [("A", 2), ("B", 1)]).total_change_pct =
      (4 / 70) * 100 ∧
    (format_message "now"
        (calculate_portfolio envAB [("A", 2), ("B", 1)]).portfolio_data
        (calculate_portfolio envAB [("A", 2), ("B", 1)]).total_value
        (calculate_portfolio envAB [("A", 2), ("B", 1)]).total_daily_change
        (calculate_portfolio envAB [("A", 2), ("B", 1)]).total_change_pct).trend
      = "up" := by
  have h4 : (calculate_portfolio envAB [("A", 2), ("B", 1)]).total_daily_change
      = 4 := by
    simp [calculate_portfolio, portfolioLoop, get_stock_data, envAB, ilocNeg]
    norm_num
  refine ⟨fun env portfolio => ?_, ?_, h4, ?_, ?_⟩
  · simpa [calculate_portfolio] using portfolioLoop_sums env portfolio
  · simp [calculate_portfolio, portfolioLoop, get_stock_data, envAB, ilocNeg]
    norm_num
  · simp [calculate_portfolio, portfolioLoop, get_stock_data, envAB, ilocNeg]
    norm_num
  · norm_num [format_message, h4]

/-- Claim C6.  A holding of the portfolio whose fetch fails is excluded:
the loop output (lines and both totals) equals the output over the
sub-portfolio of successful fetches alone, and the failing symbol appears
in no line; the run continues (the loop is total). -/
theorem c6_failed_fetch_excluded (env : Env) (p : List (String × ℚ))
    (symbol : String) (shares : ℚ) (_hmem : (symbol, shares) ∈ p)
    (hfail : get_stock_data env symbol = none) :
    portfolioLoop env p =
      portfolioLoop env
        (p.filter (fun q => (get_stock_data env q.1).isSome)) ∧
    symbol ∉ (portfolioLoop env p).1.map PortfolioLine.symbol := by
  refine ⟨portfolioLoop_filter env p, ?_⟩
  intro hin
  rcases List.mem_map.mp hin with ⟨line, hline, hsym⟩
  have hok := portfolioLoop_mem_fetch_ok env p line hline
  rw [hsym, hfail] at hok
  simp at hok

/-- Claim C6, witness: in the portfolio `A, Z, B` under `envAB` the symbol
`Z` fails to fetch, the totals equal those over `A, B` alone, and `Z`
appears in no line. -/
theorem c6_failed_fetch_excluded_witness :
    portfolioLoop envAB [("A", 2), ("Z", 1), ("B", 1)] =
      portfolioLoop envAB
        (([("A", 2), ("Z", 1), ("B", 1)] : List (String × ℚ)).filter
          (fun q => (get_stock_data envAB q.1).isSome)) ∧
    "Z" ∉ (portfolioLoop envAB [("A", 2), ("Z", 1), ("B", 1)]).1.map
        PortfolioLine.symbol :=
  c6_failed_fetch_excluded envAB [("A", 2), ("Z", 1), ("B", 1)] "Z" 1
    (by simp) rfl

/-- Claim C7.  The trend chosen by `format_message` is `up` exactly when
the total daily change is positive, `down` exactly when it is negative and
`flat` exactly when it is zero: a three-way exhaustive, mutually exclusive
choice. -/
theorem c7_trend_trichotomy (now : String) (pdata : List PortfolioLine)
    (tv tdc pct : ℚ) :
    ((format_message now pdata tv tdc pct).trend = "up" ↔ 0 < tdc) ∧
    ((format_message now pdata tv tdc pct).trend = "down" ↔ tdc < 0) ∧
    ((format_message now pdata tv tdc pct).trend = "flat" ↔ tdc = 0) := by
  by_cases h1 : 0 < tdc
  · simp [format_message, h1, lt_asymm h1, ne_of_gt h1]
  · by_cases h2 : tdc < 0
    · simp [format_message, h1, h2, ne_of_lt h2]
    · have h0 : tdc = 0 := le_antisymm (not_lt.mp h1) (not_lt.mp h2)
      simp [format_message, h0]

/-- Claim C8.  With the webhook URL configured (nonempty), the run makes
exactly one POST, exits 0 exactly when the webhook answered HTTP 200 (any
other status or a transport exception gives failure), and otherwise
exits 1. -/
theorem c8_delivery_success_iff_200 (env : Env)
    (portfolio : List (String × ℚ)) (now s : String)
    (h : env.slack_webhook_url = some s) (hne : s.isEmpty = false) :
    (StockBot.main env portfolio now).2.countP HttpCall.isPost = 1 ∧
    ((StockBot.main env portfolio now).1 = 0 ↔
      env.postStatus = Except.ok 200) ∧
    ((StockBot.main env portfolio now).1 = 1 ↔
      env.postStatus ≠ Except.ok 200) := by
  cases hps : env.postStatus with
  | ok status =>
    by_cases h200 : status = 200
    · simp [StockBot.main, send_to_slack, urlFalsy, h, hne, hps, h200,
        List.countP_append, List.countP_cons, fetchTrace_no_post,
        HttpCall.isPost]
    · simp [StockBot.main, send_to_slack, urlFalsy, h, hne, hps, h200,
        List.countP_append, List.countP_cons, fetchTrace_no_post,
        HttpCall.isPost]
  | error e =>
    simp [StockBot.main, send_to_slack, urlFalsy, h, hne, hps,
      List.countP_append, List.countP_cons, fetchTrace_no_post,
      HttpCall.isPost]

/-- Claim C8, witness: under `envAB` (webhook answers 200) the run makes
one POST and exits 0. -/
theorem c8_delivery_success_iff_200_witness :
    (StockBot.main envAB [("A", 1)] "now").2.countP HttpCall.isPost = 1 ∧
    ((StockBot.main envAB [("A", 1)] "now").1 = 0 ↔
      envAB.postStatus = Except.ok 200) ∧
    ((StockBot.main envAB [("A", 1)] "now").1 = 1 ↔
      envAB.postStatus ≠ Except.ok 200) :=
  c8_delivery_success_iff_200 envAB [("A", 1)] "now"
    "https://hooks.example/AB" rfl rfl

/-- Claim C9.  In the formatted message, a holding is rendered with the
green (up) marker exactly when its daily price change is ≥ 0; in
particular a holding with zero change gets the green marker. -/
theorem c9_marker_green_iff_nonneg (now : String)
    (pdata : List PortfolioLine) (tv tdc pct : ℚ)
    (entry : String × PortfolioLine)
    (hmem : entry ∈ (format_message now pdata tv tdc pct).holding_sections) :
    entry.1 = "🟢" ↔ 0 ≤ entry.2.change := by
  simp only [format_message, List.mem_map] at hmem
  rcases hmem with ⟨stock, hstock, hentry⟩
  by_cases hc : stock.change ≥ 0
  · simp [← hentry, hc]
  · simp [← hentry, hc]

/-- Claim C9, witness: the zero-change line of `B` in the scenario message
carries the green marker, and indeed `0 ≤ 0`. -/
theorem c9_marker_green_iff_nonneg_witness :
    (("🟢", (⟨"B", 1, 50, 50, 0, 0, 0⟩ : PortfolioLine)).1 = "🟢" ↔
      0 ≤ (("🟢", (⟨"B", 1, 50, 50, 0, 0, 0⟩ : PortfolioLine)).2).change) :=
  c9_marker_green_iff_nonneg "now" [⟨"B", 1, 50, 50, 0, 0, 0⟩] 50 0 0
    ("🟢", ⟨"B", 1, 50, 50, 0, 0, 0⟩) (by simp [format_message])

/-- Claim C10.  When every fetch fails, the run does not abort:
`calculate_portfolio` returns no lines and all-zero totals, and (with the
webhook configured) the run still formats the empty report — header and
zero-valued summary only, no holding sections — and attempts exactly one
delivery of it. -/
theorem c10_all_fetches_fail (env : Env) (portfolio : List (String × ℚ))
    (now s : String) (hfail : ∀ q ∈ portfolio, get_stock_data env q.1 = none)
    (hurl : env.slack_webhook_url = some s) (hne : s.isEmpty = false) :
    calculate_portfolio env portfolio = ⟨[], 0, 0, 0⟩ ∧
    (format_message now [] 0 0 0).holding_sections = [] ∧
    (format_message now [] 0 0 0).total_value = 0 ∧
    (format_message now [] 0 0 0).total_daily_change = 0 ∧
    (StockBot.main env portfolio now).2.countP HttpCall.isPost = 1 ∧
    HttpCall.post s (slack_data (format_message now [] 0 0 0)) 10 ∈
      (StockBot.main env portfolio now).2 := by
  have hloop := portfolioLoop_all_fail env portfolio hfail
  have hcalc : calculate_portfolio env portfolio = ⟨[], 0, 0, 0⟩ := by
    simp [calculate_portfolio, hloop]
  refine ⟨hcalc, rfl, rfl, rfl, ?_, ?_⟩
  · cases hps : env.postStatus with
    | ok status =>
      simp [StockBot.main, send_to_slack, urlFalsy, hurl, hne, hps, hcalc,
        List.countP_append, List.countP_cons, fetchTrace_no_post,
        HttpCall.isPost]
    | error e =>
      simp [StockBot.main, send_to_slack, urlFalsy, hurl, hne, hps, hcalc,
        List.countP_append, List.countP_cons, fetchTrace_no_post,
        HttpCall.isPost]
  · cases hps : env.postStatus with
    | ok status =>
      simp [StockBot.main, send_to_slack, urlFalsy, hurl, hne, hps, hcalc]
    | error e =>
      simp [StockBot.main, send_to_slack, urlFalsy, hurl, hne, hps, hcalc]

/-- Claim C10, witness: every provider request of the source portfolio
fails under `envAllFail`, the totals are all zero, and the empty report is
still POSTed once. -/
theorem c10_all_fetches_fail_witness :
    calculate_portfolio envAllFail PORTFOLIO = ⟨[], 0, 0, 0⟩ ∧
    (format_message "now" [] 0 0 0).holding_sections = [] ∧
    (format_message "now" [] 0 0 0).total_value = 0 ∧
    (format_message "now" [] 0 0 0).total_daily_change = 0 ∧
    (StockBot.main envAllFail PORTFOLIO "now").2.countP HttpCall.isPost = 1 ∧
    HttpCall.post "https://hooks.example/fail"
        (slack_data (format_message "now" [] 0 0 0)) 10 ∈
      (StockBot.main envAllFail PORTFOLIO "now").2 :=
  c10_all_fetches_fail envAllFail PORTFOLIO "now" "https://hooks.example/fail"
    (by decide) rfl rfl
